import Mathlib

/-!
Verification of the hybrid audiobook recommendation core.

The repository holds three near-duplicate implementations of the same core:
  * `src/ml/…`        (preprocess_data.py, collaborative_filtering.py,
                       content_based.py, recommendation_engine.py)
  * `src/src/…`       (models/collaborative_filtering.py, models/content_based.py,
                       recommendation_engine.py)
  * `src/recommender/hybrid_recommender.py`

This file shallowly embeds the algorithmic parts of those modules over exact
rationals (`ℚ` stands for the Python floats; the claims under test are about
branch structure, filtering and exact linear formulas, not float rounding).
Stateful objects become explicit state records; Python exceptions become
`Except String`; functions that catch their own exceptions and return empty
results stay total, exactly as the source functions never raise.

Similarity matrices (`cosine_similarity` outputs, computed once at load time
and stored on the objects) and the src/src fitted-model data are carried as
fields of the state records: the source reads them back as plain arrays, and
every theorem below is insensitive to how their numerical entries were
produced.  Concrete states used in evaluations carry similarity values that
are exact cosines of the accompanying rational vectors.

`numpy.argsort(v)[::-1]` is modelled as a stable ascending sort of the index
range followed by reversal (`argsortDesc` below), matching numpy's behaviour
on the small arrays used in the concrete evaluations.  Python's
`sorted(..., reverse=True)` / `.sort_values(ascending=False)` are modelled
by the stable descending insertion sort `sortDescBy`.
`scipy.sparse.csr_matrix` sums duplicate `(row, col)` entries, and the
embedding of the matrix builder does the same.  Python dicts are association
lists in insertion order, looked up with `alookup`; `pandas` index `get_loc`
becomes `idxOfQ`.
-/

/-- Association-list lookup with propositional key comparison
(models Python `dict[key]` / `dict.get`). -/
def alookup (key : ℕ) : List (ℕ × α) → Option α
  | [] => none
  | kv :: rest => if key = kv.1 then some kv.2 else alookup key rest

/-- First index of an element, `none` when absent
(models `pandas.Index.get_loc`, which raises `KeyError` when absent). -/
def idxOfQ (x : ℕ) : List ℕ → Option ℕ
  | [] => none
  | y :: rest => if x = y then some 0 else (idxOfQ x rest).map (· + 1)

/-- Keep the first occurrence of every element, in first-seen order
(`pandas.unique` / first-seen id-index assignment; also models iterating a
Python set union of small int keys in the hybrid combiners, where no claim
depends on the iteration order).  Tail-recursive worker. -/
def dedupAux : List ℕ → List ℕ → List ℕ
  | [], acc => acc
  | x :: xs, acc => if x ∈ acc then dedupAux xs acc else dedupAux xs (acc ++ [x])

/-- First-seen deduplication of a list of identifiers. -/
def dedupFirstSeen (l : List ℕ) : List ℕ := dedupAux l []

/-- Insertion step of the `numpy.argsort(v)[::-1]` model: a later index is
placed before any index with an equal or smaller value, which is exactly
what reversing a stable ascending sort does to ties. -/
def insertGe (v : ℕ → ℚ) (i : ℕ) : List ℕ → List ℕ
  | [] => [i]
  | j :: rest => if v j ≤ v i then i :: j :: rest else j :: insertGe v i rest

/-- Model of `numpy.argsort(v)[::-1]` on a length-`n` value vector: indices
sorted by descending value, ties ordered by descending index. -/
def argsortDesc (v : ℕ → ℚ) (n : ℕ) : List ℕ :=
  (List.range n).foldl (fun acc i => insertGe v i acc) []

/-- Insertion step of the Python `sorted(..., reverse=True)` model: the new
element goes after any element with an equal key (stability). -/
def insertDescBy (key : α → ℚ) (x : α) : List α → List α
  | [] => [x]
  | y :: rest => if key y < key x then x :: y :: rest else y :: insertDescBy key x rest

/-- Stable descending sort by a rational key
(Python `sorted(..., key=..., reverse=True)`). -/
def sortDescBy (key : α → ℚ) (l : List α) : List α :=
  l.foldl (fun acc x => insertDescBy key x acc) []

/-- Effectful map over a list that stops at the first error, as a Python
`for` loop raising out of the enclosing function does. -/
def mapExcept (f : α → Except String β) : List α → Except String (List β)
  | [] => Except.ok []
  | x :: xs => do
    let y ← f x
    let ys ← mapExcept f xs
    Except.ok (y :: ys)

/-- Minimum of a seed value and a list (`min(...)` over a nonempty value set). -/
def listMinQ (x : ℚ) (l : List ℚ) : ℚ := l.foldl min x

/-- Maximum of a seed value and a list (`max(...)` over a nonempty value set). -/
def listMaxQ (x : ℚ) (l : List ℚ) : ℚ := l.foldl max x

namespace Preprocess

/-- One row of the `user_interactions` table
(`src/ml/preprocess_data.py`, consumed by `create_user_item_matrix`). -/
structure Interaction where
  user_id : ℕ
  book_id : ℕ
  progress : ℚ
  rating : Option ℚ
deriving DecidableEq

/-- Cell value computed for one row (lines 47–53 of preprocess_data.py):
`rating * (progress/100)` when the rating is present, else `progress/100`. -/
def interactionValue (r : Interaction) : ℚ :=
  match r.rating with
  | none => r.progress / 100
  | some rr => rr * (r.progress / 100)

/-- Sparse matrix built from `(values, (rows, cols))` triples, with
scipy's `csr_matrix` semantics: duplicate coordinates are summed. -/
structure CSRMatrix where
  nrows : ℕ
  ncols : ℕ
  entries : List (ℕ × ℕ × ℚ)
deriving DecidableEq

/-- Reading one cell of the built matrix: the sum of all entry values at
that coordinate (scipy sums duplicate entries on construction). -/
def CSRMatrix.cell (m : CSRMatrix) (i j : ℕ) : ℚ :=
  ((m.entries.filter (fun e => decide (e.1 = i ∧ e.2.1 = j))).map (fun e => e.2.2)).sum

/-- Distinct user ids of the interaction table, first-seen order
(`interactions['user_id'].unique()`). -/
def user_ids (interactions : List Interaction) : List ℕ :=
  dedupFirstSeen (interactions.map (·.user_id))

/-- Distinct book ids of the interaction table, first-seen order. -/
def book_ids (interactions : List Interaction) : List ℕ :=
  dedupFirstSeen (interactions.map (·.book_id))

/-- Row index assigned to a user id (`user_to_idx`). -/
def user_to_idx (interactions : List Interaction) (uid : ℕ) : ℕ :=
  (user_ids interactions).indexOf uid

/-- Column index assigned to a book id (`book_to_idx`). -/
def book_to_idx (interactions : List Interaction) (bid : ℕ) : ℕ :=
  (book_ids interactions).indexOf bid

/-- Embedding of `create_user_item_matrix` (preprocess_data.py lines 16–65):
assign first-seen indices, emit one `(row, col, value)` triple per
interaction row, and build the csr matrix from the triples.  The function
performs no range validation of `progress` or `rating` (the source has no
check and no exception path). -/
def create_user_item_matrix (interactions : List Interaction) : CSRMatrix :=
  { nrows := (user_ids interactions).length
    ncols := (book_ids interactions).length
    entries := interactions.map (fun r =>
      (user_to_idx interactions r.user_id, book_to_idx interactions r.book_id,
       interactionValue r)) }

end Preprocess

namespace ML

/-- Embedding of `numpy.isclose(a, b)` with its default tolerances
`rtol = 1e-5`, `atol = 1e-8`: true iff `|a - b| ≤ atol + rtol·|b|`. -/
def isclose (a b : ℚ) : Bool := decide (|a - b| ≤ 1 / 100000000 + (1 / 100000) * |b|)

/-- Weight validation performed by `HybridRecommender.__init__` in
`src/ml/recommendation_engine.py` lines 22–23: the constructor raises
`ValueError` unless `np.isclose(collaborative_weight + content_weight, 1.0)`.
No sign or range check is made. -/
def init_valid (collaborative_weight content_weight : ℚ) : Bool :=
  isclose (collaborative_weight + content_weight) 1

/-- Smallest raw score of a score dict (`min(scores.values())`), 0 on the
empty dict (unused there: the source returns early). -/
def scoresMin : List (ℕ × ℚ) → ℚ
  | [] => 0
  | p :: rest => listMinQ p.2 (rest.map (·.2))

/-- Largest raw score of a score dict (`max(scores.values())`). -/
def scoresMax : List (ℕ × ℚ) → ℚ
  | [] => 0
  | p :: rest => listMaxQ p.2 (rest.map (·.2))

/-- `score_range = max_score - min_score`. -/
def scoreRange (scores : List (ℕ × ℚ)) : ℚ := scoresMax scores - scoresMin scores

/-- Embedding of the inner `normalize_scores` of
`HybridRecommender.generate_recommendations`
(`src/ml/recommendation_engine.py` lines 124–135): empty dict maps to empty
dict; zero range maps every score to 1.0; otherwise min-max scaling. -/
def normalize_scores (scores : List (ℕ × ℚ)) : List (ℕ × ℚ) :=
  match scores with
  | [] => []
  | p :: rest =>
    let min_score := listMinQ p.2 (rest.map (·.2))
    let max_score := listMaxQ p.2 (rest.map (·.2))
    let score_range := max_score - min_score
    if score_range = 0 then (p :: rest).map (fun q => (q.1, 1))
    else (p :: rest).map (fun q => (q.1, (q.2 - min_score) / score_range))

/-- `scores.get(book_id, 0.0)` on a score dict. -/
def getScore (scores : List (ℕ × ℚ)) (b : ℕ) : ℚ := (alookup b scores).getD 0

/-- Embedding of the weighted-combination block of
`HybridRecommender.generate_recommendations`
(`src/ml/recommendation_engine.py` lines 140–151): over the union of both
engines' candidate ids, `hybrid = cw * collab.get(b, 0) + ct * content.get(b, 0)`. -/
def combine_scores (collaborative_weight content_weight : ℚ)
    (collab_scores content_scores : List (ℕ × ℚ)) : List (ℕ × ℚ) :=
  let all_book_ids := dedupFirstSeen (collab_scores.map (·.1) ++ content_scores.map (·.1))
  all_book_ids.map (fun b =>
    (b, collaborative_weight * getScore collab_scores b +
        content_weight * getScore content_scores b))

/-- State of `UserUserCollaborativeFiltering`
(`src/ml/collaborative_filtering.py`): the loaded interaction matrix, the
four id mappings from `id_mappings.json`, the user-user cosine similarity
matrix computed in `__init__`, and the `book_id` column of the audiobooks
table (used only for the metadata join, which raises `IndexError` when a
book id is absent). -/
structure CollaborativeState where
  user_item_matrix : List (List ℚ)
  user_to_idx : List (ℕ × ℕ)
  idx_to_user : List (ℕ × ℕ)
  idx_to_book : List (ℕ × ℕ)
  user_similarity : List (List ℚ)
  audiobook_ids : List ℕ

namespace Collaborative

/-- `_get_user_idx`: mapping lookup, `KeyError` when the user id is absent. -/
def get_user_idx (st : CollaborativeState) (user_id : ℕ) : Except String ℕ :=
  match alookup user_id st.user_to_idx with
  | some i => Except.ok i
  | none => Except.error "KeyError: user_to_idx"

/-- `_get_book_id`: mapping lookup, `KeyError` when the index is absent. -/
def get_book_id (st : CollaborativeState) (book_idx : ℕ) : Except String ℕ :=
  match alookup book_idx st.idx_to_book with
  | some b => Except.ok b
  | none => Except.error "KeyError: idx_to_book"

/-- `get_similar_users` (collaborative_filtering.py lines 39–52):
`np.argsort(similarities)[::-1][1:n+1]` mapped back to user ids with the
similarity value attached. -/
def get_similar_users (st : CollaborativeState) (user_id n : ℕ) :
    Except String (List (ℕ × ℚ)) := do
  let user_idx ← get_user_idx st user_id
  let user_similarities := st.user_similarity.getD user_idx []
  let similar_user_idxs :=
    ((argsortDesc (fun i => user_similarities.getD i 0) user_similarities.length).drop 1).take n
  mapExcept (fun idx => do
    let uid ← match alookup idx st.idx_to_user with
      | some u => Except.ok u
      | none => Except.error "KeyError: idx_to_user"
    Except.ok (uid, user_similarities.getD idx 0)) similar_user_idxs

/-- `get_user_recommendations` (collaborative_filtering.py lines 54–115):
similarity-weighted average over the 10 most similar users; with
`exclude_listened` the listened columns are ASSIGNED −1 (not removed), then
`np.argsort(predicted)[::-1][:top_n]` picks the top indices — so demoted
listened books remain candidates.  Output pairs are (book_id,
predicted_rating); the metadata join keeps only the id and the rating here. -/
def get_user_recommendations (st : CollaborativeState) (user_id top_n : ℕ)
    (exclude_listened : Bool) : Except String (List (ℕ × ℚ)) := do
  let user_idx ← get_user_idx st user_id
  let user_vector := st.user_item_matrix.getD user_idx []
  let ncols := user_vector.length
  let similar_users ← get_similar_users st user_id 10
  let simVecs ← mapExcept (fun su => do
      let sidx ← get_user_idx st su.1
      Except.ok (su.2, st.user_item_matrix.getD sidx [])) similar_users
  let weight_sum : ℚ := (simVecs.map (fun sv => |sv.1|)).sum
  let predicted0 := (List.range ncols).map (fun j =>
      ((simVecs.map (fun sv => sv.1 * sv.2.getD j 0)).sum) /
        (if weight_sum = 0 then 1 else weight_sum))
  let predicted := if exclude_listened then
      (List.range ncols).map (fun j =>
        if 0 < user_vector.getD j 0 then (-1 : ℚ) else predicted0.getD j 0)
    else predicted0
  let top_book_idxs := (argsortDesc (fun j => predicted.getD j 0) ncols).take top_n
  mapExcept (fun j => do
      let book_id ← get_book_id st j
      if book_id ∈ st.audiobook_ids then
        Except.ok (book_id, predicted.getD j 0)
      else Except.error "IndexError: audiobooks") top_book_idxs

end Collaborative

/-- State of `ContentBasedRecommender` (`src/ml/content_based.py`): the
item-item cosine similarity matrix computed in `__init__` from the content
features, the id mappings, and the audiobooks id column for metadata joins. -/
structure ContentState where
  similarity_matrix : List (List ℚ)
  book_to_idx : List (ℕ × ℕ)
  idx_to_book : List (ℕ × ℕ)
  audiobook_ids : List ℕ

namespace ContentBased

/-- `_get_book_idx`: mapping lookup, `KeyError` when the book id is absent. -/
def get_book_idx (st : ContentState) (book_id : ℕ) : Except String ℕ :=
  match alookup book_id st.book_to_idx with
  | some i => Except.ok i
  | none => Except.error "KeyError: book_to_idx"

/-- `_get_book_id`: mapping lookup, `KeyError` when the index is absent. -/
def get_book_id (st : ContentState) (book_idx : ℕ) : Except String ℕ :=
  match alookup book_idx st.idx_to_book with
  | some b => Except.ok b
  | none => Except.error "KeyError: idx_to_book"

/-- `get_similar_books` (content_based.py lines 43–89): the anchor is
excluded purely by position — `np.argsort(similarities)[::-1][1:top_n+1]`
drops the FIRST sorted index, whichever item that is.  Scores are always
carried here; the source's `include_scores` flag only controls which dict
fields are emitted.  The metadata joins on the audiobooks table raise
`IndexError` when an id is absent from it. -/
def get_similar_books (st : ContentState) (book_id top_n : ℕ) :
    Except String (List (ℕ × ℚ)) := do
  let book_idx ← get_book_idx st book_id
  let similarities := st.similarity_matrix.getD book_idx []
  let similar_idxs :=
    ((argsortDesc (fun i => similarities.getD i 0) similarities.length).drop 1).take top_n
  if book_id ∈ st.audiobook_ids then
    mapExcept (fun idx => do
      let bid ← get_book_id st idx
      if bid ∈ st.audiobook_ids then Except.ok (bid, similarities.getD idx 0)
      else Except.error "IndexError: audiobooks") similar_idxs
  else Except.error "IndexError: audiobooks"

end ContentBased

/-- State of the ml `HybridRecommender`
(`src/ml/recommendation_engine.py`): validated weights, the two engines,
and the audiobooks id column for the final metadata join. -/
structure HybridState where
  collaborative_weight : ℚ
  content_weight : ℚ
  collaborative : CollaborativeState
  content_based : ContentState
  audiobook_ids : List ℕ

/-- One step of building `all_similar_books` in
`_get_content_recommendations`: append the similarity score to the entry of
`b`, creating the entry on first sight (Python dict-of-lists in insertion
order). -/
def appendScore (acc : List (ℕ × List ℚ)) (b : ℕ) (s : ℚ) : List (ℕ × List ℚ) :=
  if (alookup b acc).isSome then
    acc.map (fun g => if g.1 = b then (g.1, g.2 ++ [s]) else g)
  else acc ++ [(b, [s])]

namespace Hybrid

/-- `_get_user_listened_books` (recommendation_engine.py lines 35–44):
book ids whose interaction value for the user is strictly positive. -/
def get_user_listened_books (st : HybridState) (user_id : ℕ) :
    Except String (List ℕ) := do
  let user_idx ← Collaborative.get_user_idx st.collaborative user_id
  let user_vector := st.collaborative.user_item_matrix.getD user_idx []
  mapExcept (Collaborative.get_book_id st.collaborative)
    ((List.range user_vector.length).filter (fun j => decide (0 < user_vector.getD j 0)))

/-- `_get_collaborative_recommendations` (lines 46–61): delegate to the
collaborative engine with `exclude_listened=True` and keep (id, rating). -/
def get_collaborative_recommendations (st : HybridState) (user_id n : ℕ) :
    Except String (List (ℕ × ℚ)) :=
  Collaborative.get_user_recommendations st.collaborative user_id n true

/-- `_get_content_recommendations` (lines 63–102): take the user's top 3
book indices by interaction value, fetch similar books for each, collect
scores per book id, and return the mean score per id. -/
def get_content_recommendations (st : HybridState) (user_id n : ℕ) :
    Except String (List (ℕ × ℚ)) := do
  let user_idx ← Collaborative.get_user_idx st.collaborative user_id
  let user_vector := st.collaborative.user_item_matrix.getD user_idx []
  let top_book_idxs := (argsortDesc (fun j => user_vector.getD j 0) user_vector.length).take 3
  let top_book_ids ← mapExcept (Collaborative.get_book_id st.collaborative) top_book_idxs
  let sim_lists ← mapExcept
    (fun bid => ContentBased.get_similar_books st.content_based bid n) top_book_ids
  let all_similar_books := sim_lists.foldl
    (fun acc sims => sims.foldl (fun acc2 p => appendScore acc2 p.1 p.2) acc) []
  Except.ok (all_similar_books.map (fun g => (g.1, g.2.sum / (g.2.length : ℚ))))

/-- `generate_recommendations` (lines 104–181): fetch 2·top_n candidates
from each engine, normalize, blend, hard-filter listened books, sort
descending, truncate, and join metadata.  Output tuples are (book_id,
hybrid_score, collaborative_score, content_score).  Any `KeyError` from an
unknown user propagates out of the whole call, uncaught. -/
def generate_recommendations (st : HybridState) (user_id top_n : ℕ) :
    Except String (List (ℕ × ℚ × ℚ × ℚ)) := do
  let collaborative_recs ← get_collaborative_recommendations st user_id (top_n * 2)
  let content_recs ← get_content_recommendations st user_id (top_n * 2)
  let collab_scores := normalize_scores collaborative_recs
  let content_scores := normalize_scores content_recs
  let hybrid_scores := combine_scores st.collaborative_weight st.content_weight
    collab_scores content_scores
  let listened_books ← get_user_listened_books st user_id
  let top_books := (sortDescBy (fun p => p.2)
    (hybrid_scores.filter (fun p => decide (p.1 ∉ listened_books)))).take top_n
  mapExcept (fun p =>
      if p.1 ∈ st.audiobook_ids then
        Except.ok (p.1, p.2, getScore collab_scores p.1, getScore content_scores p.1)
      else Except.error "IndexError: audiobooks") top_books

end Hybrid

end ML

namespace SS

/-- Result of `user_ratings.pivot(index='user_id', columns='book_id',
values='rating').fillna(0)` in `CollaborativeFilter.fit`: the user index,
the book columns, and the dense ratings matrix. -/
structure PivotData where
  users : List ℕ
  books : List ℕ
  matrix : List (List ℚ)

/-- Weight validation performed by `HybridRecommender.__init__` in
`src/src/recommendation_engine.py` lines 18–21: both weights must lie in
[0, 1] and the sum must be within 1e-6 of 1, else `ValueError`. -/
def init_valid (collaborative_weight content_weight : ℚ) : Bool :=
  (decide (0 ≤ collaborative_weight) && decide (collaborative_weight ≤ 1) &&
     decide (0 ≤ content_weight) && decide (content_weight ≤ 1)) &&
    decide (|collaborative_weight + content_weight - 1| ≤ 1 / 1000000)

/-- State of `CollaborativeFilter`
(`src/src/models/collaborative_filtering.py`): `None` before `fit`, and the
user-user cosine similarity matrix computed by `fit`. -/
structure CollaborativeFilter where
  user_ratings_matrix : Option PivotData
  user_similarity : List (List ℚ)

/-- `CollaborativeFilter.predict` (lines 38–84): `[]` when unfitted; the
`KeyError` of `users.get_loc` on an unknown user is caught and yields `[]`;
otherwise rate each unrated book by `Σ other_ratings·sim / Σ sim` (0 when
the similarity sum is not positive), sort descending, take n. -/
def predict (st : CollaborativeFilter) (user_id n : ℕ) : List (ℕ × ℚ) :=
  match st.user_ratings_matrix with
  | none => []
  | some pd =>
    match idxOfQ user_id pd.users with
    | none => []
    | some user_idx =>
      let user_ratings := pd.matrix.getD user_idx []
      let similar_users := st.user_similarity.getD user_idx []
      let unrated_books := ((List.range pd.books.length).filter
        (fun j => decide (user_ratings.getD j 0 = 0))).map (fun j => pd.books.getD j 0)
      if unrated_books.isEmpty then []
      else
        let predictions := unrated_books.map (fun book_id =>
          let book_idx := (idxOfQ book_id pd.books).getD 0
          let other_ratings := pd.matrix.map (fun row => row.getD book_idx 0)
          let weighted_sum := ((List.range pd.users.length).map
            (fun u => other_ratings.getD u 0 * similar_users.getD u 0)).sum
          let similarity_sum := similar_users.sum
          (book_id, if 0 < similarity_sum then weighted_sum / similarity_sum else 0))
        (sortDescBy (fun p => p.2) predictions).take n

/-- Fitted data of the src/src content model: the `book_id` column of the
fitted books table and the item-item cosine similarities of its TF-IDF
content vectors (carried as data; see the file header). -/
structure ContentFit where
  book_ids : List ℕ
  sim : List (List ℚ)

/-- State of `ContentBasedRecommender` (`src/src/models/content_based.py`):
`None` before `fit`. -/
structure ContentBasedRecommender where
  fitted : Option ContentFit

namespace ContentBased

/-- `ContentBasedRecommender.get_similar_books` (lines 40–78): `[]` when
unfitted; the `IndexError` of `.index[0]` on an unknown book id is caught
and yields `[]`; otherwise `np.argsort(scores)[::-1][1:n+1]` mapped back to
(book_id, score). -/
def get_similar_books (st : ContentBasedRecommender) (book_id n : ℕ) : List (ℕ × ℚ) :=
  match st.fitted with
  | none => []
  | some cf =>
    match idxOfQ book_id cf.book_ids with
    | none => []
    | some book_idx =>
      let scores := cf.sim.getD book_idx []
      let similar_indices :=
        ((argsortDesc (fun i => scores.getD i 0) scores.length).drop 1).take n
      similar_indices.map (fun idx => (cf.book_ids.getD idx 0, scores.getD idx 0))

end ContentBased

/-- One row of the src/src ratings table: (user_id, book_id, rating). -/
structure Rating where
  user_id : ℕ
  book_id : ℕ
  rating : ℚ
deriving DecidableEq

/-- State of the src/src `HybridRecommender`
(`src/src/recommendation_engine.py`): validated weights, the two models,
and the assigned data frames (`None` until assigned). -/
structure HybridRecommender where
  collaborative_weight : ℚ
  content_weight : ℚ
  collaborative_filter : CollaborativeFilter
  content_based : ContentBasedRecommender
  user_ratings : Option (List Rating)
  books : Option (List ℕ)

namespace Hybrid

/-- The state right after `HybridRecommender.__init__` with the default
weights 0.6/0.4: fresh unfitted models, no data assigned. -/
def initState : HybridRecommender :=
  { collaborative_weight := 3 / 5
    content_weight := 2 / 5
    collaborative_filter := { user_ratings_matrix := none, user_similarity := [] }
    content_based := { fitted := none }
    user_ratings := none
    books := none }

/-- `_get_user_listened_books` (lines 57–63): the user's book ids from the
ratings table, the empty set when no data is assigned. -/
def get_user_listened_books (st : HybridRecommender) (user_id : ℕ) : List ℕ :=
  match st.user_ratings with
  | none => []
  | some rows => (rows.filter (fun r => decide (r.user_id = user_id))).map (·.book_id)

/-- `get_user_recommendations` (lines 65–92): collaborative predictions
with the listened books filtered out, truncated to n. -/
def get_user_recommendations (st : HybridRecommender) (user_id n : ℕ) : List (ℕ × ℚ) :=
  let collab_recs := predict st.collaborative_filter user_id n
  let listened_books := get_user_listened_books st user_id
  (collab_recs.filter (fun p => decide (p.1 ∉ listened_books))).take n

/-- `get_similar_books` (lines 94–111): content-model similar books with
the anchor id itself filtered out. -/
def get_similar_books (st : HybridRecommender) (book_id n : ℕ) : List (ℕ × ℚ) :=
  (ContentBased.get_similar_books st.content_based book_id n).filter
    (fun p => decide (p.1 ≠ book_id))

/-- `generate_recommendations` (lines 113–170): 2n collaborative
predictions, content candidates from the user's single top-rated book,
union of ids minus listened books, `[]` when nothing remains, else weighted
blend of the RAW (unnormalized) scores, sorted descending, truncated. -/
def generate_recommendations (st : HybridRecommender) (user_id n : ℕ) : List (ℕ × ℚ) :=
  let collab_recs := predict st.collaborative_filter user_id (n * 2)
  let content_recs :=
    match st.user_ratings with
    | none => []
    | some rows =>
      match sortDescBy (fun r : Rating => r.rating)
          (rows.filter (fun r => decide (r.user_id = user_id))) with
      | [] => []
      | top :: _ => ContentBased.get_similar_books st.content_based top.book_id (n * 2)
  let all_book_ids := (dedupFirstSeen
      (collab_recs.map (·.1) ++ content_recs.map (·.1))).filter
    (fun b => decide (b ∉ get_user_listened_books st user_id))
  if all_book_ids.isEmpty then []
  else
    (sortDescBy (fun p : ℕ × ℚ => p.2) (all_book_ids.map (fun b =>
      (b, st.collaborative_weight * (alookup b collab_recs).getD 0 +
          st.content_weight * (alookup b content_recs).getD 0)))).take n

end Hybrid

end SS

namespace Recom

/-- Weight validation performed by `HybridRecommender.__init__` in
`src/recommender/hybrid_recommender.py` lines 8–21: the constructor only
stores the weights, so every pair is accepted. -/
def init_valid (_collaborative_weight _content_weight : ℚ) : Bool := true

/-- Embedding of the inner `normalize_scores` of
`HybridRecommender.generate_recommendations`
(`src/recommender/hybrid_recommender.py` lines 147–156): empty dict maps to
empty dict; `(v - min)/(max - min)` when `max > min`, else the RAW value `v`
is kept unchanged. -/
def normalize_scores (scores : List (ℕ × ℚ)) : List (ℕ × ℚ) :=
  match scores with
  | [] => []
  | p :: rest =>
    let min_val := listMinQ p.2 (rest.map (·.2))
    let max_val := listMaxQ p.2 (rest.map (·.2))
    if min_val < max_val then
      (p :: rest).map (fun q => (q.1, (q.2 - min_val) / (max_val - min_val)))
    else p :: rest

end Recom

/-- Concrete ml collaborative state: 2 users, 2 books.  User 1 (row 0) has
interaction vector (3, 4) — both books listened — and user 2 (row 1) has
(1, 0).  The similarity entries are the exact cosines of those rows:
cos((3,4),(1,0)) = 3/5. -/
def mlCollabDemo : ML.CollaborativeState :=
  { user_item_matrix := [[3, 4], [1, 0]]
    user_to_idx := [(1, 0), (2, 1)]
    idx_to_user := [(0, 1), (1, 2)]
    idx_to_book := [(0, 10), (1, 20)]
    user_similarity := [[1, 3 / 5], [3 / 5, 1]]
    audiobook_ids := [10, 20] }

/-- Concrete ml content state with distinct similarities (books 101, 102;
cosine 1/2 between them, realised e.g. by feature rows (1,0) and (1,1)
scaled — any vectors with that cosine; the engine only reads the matrix). -/
def mlContentStrict : ML.ContentState :=
  { similarity_matrix := [[1, 1 / 2], [1 / 2, 1]]
    book_to_idx := [(101, 0), (102, 1)]
    idx_to_book := [(0, 101), (1, 102)]
    audiobook_ids := [101, 102] }

/-- Concrete ml content state where books 101 and 102 have IDENTICAL
feature vectors, so every pairwise cosine is exactly 1. -/
def mlContentTie : ML.ContentState :=
  { similarity_matrix := [[1, 1], [1, 1]]
    book_to_idx := [(101, 0), (102, 1)]
    idx_to_book := [(0, 101), (1, 102)]
    audiobook_ids := [101, 102] }

/-- Concrete ml hybrid state wrapping `mlCollabDemo` with default weights. -/
def mlHybridDemo : ML.HybridState :=
  { collaborative_weight := 3 / 5
    content_weight := 2 / 5
    collaborative := mlCollabDemo
    content_based := mlContentStrict
    audiobook_ids := [10, 20] }

/-- Concrete src/src fitted state: one user (id 1) who rated book 10. -/
def ssDemoState : SS.HybridRecommender :=
  { collaborative_weight := 3 / 5
    content_weight := 2 / 5
    collaborative_filter :=
      { user_ratings_matrix := some { users := [1], books := [10], matrix := [[5]] }
        user_similarity := [[1]] }
    content_based := { fitted := some { book_ids := [10], sim := [[1]] } }
    user_ratings := some [{ user_id := 1, book_id := 10, rating := 5 }]
    books := some [10] }

theorem mem_dedupAux (l : List ℕ) :
    ∀ acc x, x ∈ l ∨ x ∈ acc → x ∈ dedupAux l acc := by
  induction l with
  | nil => intro acc x h; simpa [dedupAux] using h.resolve_left (by simp)
  | cons a as ih =>
    intro acc x h
    by_cases ha : a ∈ acc
    · simp only [dedupAux, if_pos ha]
      rcases h with h | h
      · rcases List.mem_cons.mp h with rfl | h
        · exact ih acc x (Or.inr ha)
        · exact ih acc x (Or.inl h)
      · exact ih acc x (Or.inr h)
    · simp only [dedupAux, if_neg ha]
      rcases h with h | h
      · rcases List.mem_cons.mp h with rfl | h
        · exact ih _ x (Or.inr (by simp))
        · exact ih _ x (Or.inl h)
      · exact ih _ x (Or.inr (by simp [h]))

theorem mem_dedupFirstSeen {l : List ℕ} {x : ℕ} (h : x ∈ l) :
    x ∈ dedupFirstSeen l := mem_dedupAux l [] x (Or.inl h)

theorem alookup_map_pair (g : ℕ → ℚ) (l : List ℕ) (b : ℕ) (h : b ∈ l) :
    alookup b (l.map (fun x => (x, g x))) = some (g b) := by
  induction l with
  | nil => simp at h
  | cons a as ih =>
    by_cases hba : b = a
    · subst hba
      simp [alookup]
    · have hmem : b ∈ as := (List.mem_cons.mp h).resolve_left hba
      simp [alookup, hba, ih hmem]

theorem idxOfQ_eq_none {x : ℕ} {l : List ℕ} (h : x ∉ l) : idxOfQ x l = none := by
  induction l with
  | nil => rfl
  | cons y rest ih =>
    have hxy : x ≠ y := fun he => h (he ▸ List.mem_cons_self x rest)
    have hxr : x ∉ rest := fun hm => h (List.mem_cons_of_mem y hm)
    simp [idxOfQ, hxy, ih hxr]

theorem insertGe_perm (v : ℕ → ℚ) (i : ℕ) (l : List ℕ) :
    (insertGe v i l).Perm (i :: l) := by
  induction l with
  | nil => simp [insertGe]
  | cons j rest ih =>
    by_cases h : v j ≤ v i
    · simp [insertGe, h]
    · simp only [insertGe, if_neg h]
      exact (ih.cons j).trans (List.Perm.swap i j rest)

theorem foldl_insertGe_perm (v : ℕ → ℚ) (l acc : List ℕ) :
    (l.foldl (fun a i => insertGe v i a) acc).Perm (l ++ acc) := by
  induction l generalizing acc with
  | nil => simp
  | cons x xs ih =>
    simp only [List.foldl_cons]
    exact (ih _).trans ((List.Perm.append_left xs (insertGe_perm v x acc)).trans
      List.perm_middle)

theorem argsortDesc_perm (v : ℕ → ℚ) (n : ℕ) :
    (argsortDesc v n).Perm (List.range n) := by
  simpa using foldl_insertGe_perm v (List.range n) []

theorem mem_insertGe {v : ℕ → ℚ} {i x : ℕ} {l : List ℕ} (h : x ∈ insertGe v i l) :
    x = i ∨ x ∈ l := by
  have := (insertGe_perm v i l).mem_iff.mp h
  simpa using this

theorem insertGe_sorted (v : ℕ → ℚ) (i : ℕ) (l : List ℕ)
    (h : l.Pairwise (fun a b => v b ≤ v a)) :
    (insertGe v i l).Pairwise (fun a b => v b ≤ v a) := by
  induction l with
  | nil => simp [insertGe]
  | cons j rest ih =>
    by_cases hji : v j ≤ v i
    · simp only [insertGe, if_pos hji]
      refine List.pairwise_cons.mpr ⟨?_, h⟩
      intro x hx
      rcases List.mem_cons.mp hx with rfl | hx'
      · exact hji
      · exact le_trans ((List.pairwise_cons.mp h).1 x hx') hji
    · simp only [insertGe, if_neg hji]
      have hrest := (List.pairwise_cons.mp h).2
      refine List.pairwise_cons.mpr ⟨?_, ih hrest⟩
      intro x hx
      rcases mem_insertGe hx with rfl | hx'
      · exact le_of_lt (lt_of_not_le hji)
      · exact (List.pairwise_cons.mp h).1 x hx'

theorem foldl_insertGe_sorted (v : ℕ → ℚ) (l acc : List ℕ)
    (h : acc.Pairwise (fun a b => v b ≤ v a)) :
    (l.foldl (fun a i => insertGe v i a) acc).Pairwise (fun a b => v b ≤ v a) := by
  induction l generalizing acc with
  | nil => simpa
  | cons x xs ih => exact ih _ (insertGe_sorted v x acc h)

theorem argsortDesc_sorted (v : ℕ → ℚ) (n : ℕ) :
    (argsortDesc v n).Pairwise (fun a b => v b ≤ v a) :=
  foldl_insertGe_sorted v (List.range n) [] (by simp)

theorem argsortDesc_strict_max_head (v : ℕ → ℚ) (n i : ℕ) (hin : i < n)
    (hmax : ∀ j, j < n → j ≠ i → v j < v i) :
    ∃ rest, argsortDesc v n = i :: rest ∧ i ∉ rest ∧
      ∀ j ∈ rest, j < n ∧ j ≠ i := by
  have hperm := argsortDesc_perm v n
  have hmem : i ∈ argsortDesc v n := hperm.mem_iff.mpr (List.mem_range.mpr hin)
  have hnodup : (argsortDesc v n).Nodup := hperm.nodup_iff.mpr (List.nodup_range n)
  have hsorted := argsortDesc_sorted v n
  match hl : argsortDesc v n with
  | [] => rw [hl] at hmem; simp at hmem
  | h :: t =>
    rw [hl] at hmem hnodup hsorted hperm
    have hhead : h = i := by
      by_contra hne
      have hit : i ∈ t := (List.mem_cons.mp hmem).resolve_left (fun he => hne he.symm)
      have hhn : h < n := List.mem_range.mp (hperm.mem_iff.mp (by simp))
      have hlt : v h < v i := hmax h hhn (fun he => hne he)
      have hle : v i ≤ v h := (List.pairwise_cons.mp hsorted).1 i hit
      exact absurd hle (not_le.mpr hlt)
    subst hhead
    refine ⟨t, rfl, (List.nodup_cons.mp hnodup).1, ?_⟩
    intro j hj
    have hjn : j < n := List.mem_range.mp (hperm.mem_iff.mp (List.mem_cons_of_mem _ hj))
    refine ⟨hjn, ?_⟩
    intro hji
    subst hji
    exact (List.nodup_cons.mp hnodup).1 hj

theorem mapExcept_ok_mem {f : α → Except String β} {l : List α} {out : List β}
    (h : mapExcept f l = Except.ok out) :
    ∀ y ∈ out, ∃ x ∈ l, f x = Except.ok y := by
  induction l generalizing out with
  | nil =>
    intro y hy
    rw [show mapExcept f ([] : List α) = Except.ok ([] : List β) from rfl] at h
    cases h
    simp at hy
  | cons a as ih =>
    simp only [mapExcept] at h
    cases hfa : f a with
    | error e => rw [hfa] at h; simp [Except.bind, bind] at h
    | ok b =>
      rw [hfa] at h
      cases hrest : mapExcept f as with
      | error e => rw [hrest] at h; simp [Except.bind, bind] at h
      | ok bs =>
        rw [hrest] at h
        simp only [Except.bind, bind, Except.ok.injEq] at h
        subst h
        intro y hy
        rcases List.mem_cons.mp hy with rfl | hy'
        · exact ⟨a, by simp, hfa⟩
        · rcases ih hrest y hy' with ⟨x, hx, hfx⟩
          exact ⟨x, List.mem_cons_of_mem _ hx, hfx⟩

namespace Preprocess

theorem cell_eq_filter_sum (interactions : List Interaction) (u b : ℕ)
    (hu : u ∈ interactions.map (·.user_id)) (hb : b ∈ interactions.map (·.book_id)) :
    (create_user_item_matrix interactions).cell
        (user_to_idx interactions u) (book_to_idx interactions b)
      = ((interactions.filter
            (fun r => decide (r.user_id = u ∧ r.book_id = b))).map interactionValue).sum := by
  unfold create_user_item_matrix CSRMatrix.cell
  rw [List.filter_map]
  have hfeq : interactions.filter
        ((fun e : ℕ × ℕ × ℚ => decide (e.1 = user_to_idx interactions u ∧
            e.2.1 = book_to_idx interactions b)) ∘ (fun r =>
          (user_to_idx interactions r.user_id, book_to_idx interactions r.book_id,
           interactionValue r)))
      = interactions.filter (fun r => decide (r.user_id = u ∧ r.book_id = b)) := by
    apply List.filter_congr
    intro r hr
    simp only [Function.comp_apply, decide_eq_decide]
    constructor
    · rintro ⟨h1, h2⟩
      have hu' : u ∈ user_ids interactions := mem_dedupFirstSeen hu
      have hru : r.user_id ∈ user_ids interactions :=
        mem_dedupFirstSeen (List.mem_map_of_mem _ hr)
      have hb' : b ∈ book_ids interactions := mem_dedupFirstSeen hb
      have hrb : r.book_id ∈ book_ids interactions :=
        mem_dedupFirstSeen (List.mem_map_of_mem _ hr)
      exact ⟨(List.indexOf_inj hru hu').mp h1, (List.indexOf_inj hrb hb').mp h2⟩
    · rintro ⟨h1, h2⟩
      exact ⟨by rw [user_to_idx, user_to_idx, h1], by rw [book_to_idx, book_to_idx, h2]⟩
  rw [hfeq, List.map_map]
  rfl

/-- With at most one row per (user, book) pair, the rows matching a present
pair filter down to exactly that one row. -/
theorem filter_pair_eq_singleton (interactions : List Interaction)
    (r : Interaction) (hmem : r ∈ interactions)
    (honce : interactions.Pairwise
      (fun r1 r2 => ¬(r1.user_id = r2.user_id ∧ r1.book_id = r2.book_id))) :
    interactions.filter
        (fun r' => decide (r'.user_id = r.user_id ∧ r'.book_id = r.book_id)) = [r] := by
  induction interactions with
  | nil => simp at hmem
  | cons a as ih =>
    rcases List.mem_cons.mp hmem with rfl | hmem'
    · have hnone : as.filter
          (fun r' => decide (r'.user_id = r.user_id ∧ r'.book_id = r.book_id)) = [] := by
        apply List.filter_eq_nil_iff.mpr
        intro x hx
        have hx' := (List.pairwise_cons.mp honce).1 x hx
        simp only [decide_eq_true_eq]
        intro hcon
        exact hx' ⟨hcon.1.symm, hcon.2.symm⟩
      rw [List.filter_cons_of_pos (by simp), hnone]
    · have hhead : ¬(a.user_id = r.user_id ∧ a.book_id = r.book_id) := by
        intro hcon
        exact (List.pairwise_cons.mp honce).1 r hmem' ⟨hcon.1, hcon.2⟩
      have htail := ih hmem' (List.pairwise_cons.mp honce).2
      rw [List.filter_cons_of_neg (by simpa using hhead), htail]

end Preprocess

/-- Claim C1 evaluation at the failing input: in `mlCollabDemo`, user 1 has
listened to BOTH books (10 and 20), yet
`get_user_recommendations(1, top_n=5, exclude_listened=True)` returns both
of them (with sentinel rating −1): exclusion works by assigning −1 and
re-sorting, not by removal, so when fewer than top_n unconsumed candidates
exist, consumed books fill the result and the disjointness contract fails. -/
theorem C1_exclude_consumed_failing_eval :
    ML.Hybrid.get_user_listened_books mlHybridDemo 1 = Except.ok [10, 20] ∧
      ML.Collaborative.get_user_recommendations mlCollabDemo 1 5 true
        = Except.ok [(20, -1), (10, -1)] ∧
      (20 : ℕ) ∈ [10, 20] ∧ (10 : ℕ) ∈ [10, 20] := by
  refine ⟨?_, ?_, by simp, by simp⟩
  · norm_num [ML.Hybrid.get_user_listened_books, ML.Collaborative.get_user_idx,
      ML.Collaborative.get_book_id, mlHybridDemo, mlCollabDemo, alookup, mapExcept,
      List.range, List.range.loop, Except.bind, bind]
  · norm_num [ML.Collaborative.get_user_recommendations, ML.Collaborative.get_similar_users,
      ML.Collaborative.get_user_idx, ML.Collaborative.get_book_id, mlCollabDemo,
      argsortDesc, insertGe, mapExcept, alookup,
      List.range, List.range.loop, Except.bind, bind]

/-- Claim C2 counterexample: the claimed iff fails on every implementation
at a concrete weight pair.  The ml constructor accepts (−0.5, 1.5) although
one weight is negative; the recommender constructor accepts (0.5, 0.9)
although the sum is 1.4; the src/src constructor rejects (1 + 5e-7, 0)
although both weights are non-negative and the sum is within 1e-6 of 1. -/
theorem C2_weight_validation_counterexample :
    ML.init_valid (-(1 : ℚ) / 2) (3 / 2) = true ∧
      Recom.init_valid (1 / 2) (9 / 10) = true ∧
        SS.init_valid (1 + 1 / 2000000) 0 = false := by
  refine ⟨?_, rfl, ?_⟩
  · simp only [ML.init_valid, ML.isclose, decide_eq_true_eq]
    norm_num
  · have h1 : decide ((1 : ℚ) + 1 / 2000000 ≤ 1) = false := by
      rw [decide_eq_false_iff_not]
      norm_num
    simp [SS.init_valid, h1]

/-- Claim C2 (amended): only the src/src constructor enforces a weight
rule, and it is: construction succeeds iff both weights lie in [0, 1] and
the sum is within 1e-6 of 1.0. -/
theorem C2_src_src_weight_validation (cw ct : ℚ) :
    SS.init_valid cw ct = true ↔
      (0 ≤ cw ∧ cw ≤ 1 ∧ 0 ≤ ct ∧ ct ≤ 1 ∧ |cw + ct - 1| ≤ 1 / 1000000) := by
  simp only [SS.init_valid, Bool.and_eq_true, decide_eq_true_eq]
  tauto

/-- Claim C3: with at most one interaction row per (user, book) pair, the
matrix cell at that pair equals `rating * (progress/100)` when the rating
is present and `progress/100` otherwise, within tolerance 1e-9 (the
embedding over exact rationals realises it exactly). -/
theorem C3_cell_weighting (interactions : List Preprocess.Interaction)
    (r : Preprocess.Interaction) (hmem : r ∈ interactions)
    (honce : interactions.Pairwise
      (fun r1 r2 => ¬(r1.user_id = r2.user_id ∧ r1.book_id = r2.book_id))) :
    |(Preprocess.create_user_item_matrix interactions).cell
        (Preprocess.user_to_idx interactions r.user_id)
        (Preprocess.book_to_idx interactions r.book_id)
      - (match r.rating with
         | none => r.progress / 100
         | some rr => rr * (r.progress / 100))| ≤ 1 / 1000000000 := by
  rw [Preprocess.cell_eq_filter_sum interactions r.user_id r.book_id
      (List.mem_map_of_mem _ hmem) (List.mem_map_of_mem _ hmem),
    Preprocess.filter_pair_eq_singleton interactions r hmem honce]
  simp [Preprocess.interactionValue]

/-- Witness for C3 at a concrete single-row table. -/
theorem C3_cell_weighting_witness :
    |(Preprocess.create_user_item_matrix [⟨1, 10, 50, some 4⟩]).cell
        (Preprocess.user_to_idx [⟨1, 10, 50, some 4⟩] 1)
        (Preprocess.book_to_idx [⟨1, 10, 50, some 4⟩] 10)
      - (match (Preprocess.Interaction.mk 1 10 50 (some 4)).rating with
         | none => (Preprocess.Interaction.mk 1 10 50 (some 4)).progress / 100
         | some rr => rr * ((Preprocess.Interaction.mk 1 10 50 (some 4)).progress / 100))|
      ≤ 1 / 1000000000 :=
  C3_cell_weighting [⟨1, 10, 50, some 4⟩] ⟨1, 10, 50, some 4⟩ (by simp) (by simp)

/-- Claim C4 counterexample: two rows on the same (user, book) pair.  The
first contributes value 2 (= 4·50/100) and the second value 3 (= 3·100/100);
the built cell holds 5, the sum, not the last row's 3 — scipy's
`csr_matrix` sums duplicate coordinates, so last-write-wins is false. -/
theorem C4_last_write_counterexample :
    (Preprocess.create_user_item_matrix
        [⟨1, 10, 50, some 4⟩, ⟨1, 10, 100, some 3⟩]).cell 0 0 = 5 ∧
      (5 : ℚ) ≠ 3 := by
  constructor
  · norm_num [Preprocess.create_user_item_matrix, Preprocess.CSRMatrix.cell,
      Preprocess.user_to_idx, Preprocess.book_to_idx, Preprocess.user_ids,
      Preprocess.book_ids, dedupFirstSeen, dedupAux, Preprocess.interactionValue,
      List.indexOf, List.findIdx, List.findIdx.go]
  · norm_num

/-- Claim C4 (amended): the cell for a (user, book) pair present in the
table equals the SUM of the weighted values of all interaction rows
targeting that pair. -/
theorem C4_duplicate_rows_sum (interactions : List Preprocess.Interaction) (u b : ℕ)
    (hu : u ∈ interactions.map (·.user_id)) (hb : b ∈ interactions.map (·.book_id)) :
    (Preprocess.create_user_item_matrix interactions).cell
        (Preprocess.user_to_idx interactions u) (Preprocess.book_to_idx interactions b)
      = ((interactions.filter
            (fun r => decide (r.user_id = u ∧ r.book_id = b))).map
          Preprocess.interactionValue).sum :=
  Preprocess.cell_eq_filter_sum interactions u b hu hb

/-- Witness for C4's amended theorem on the duplicate-pair table. -/
theorem C4_duplicate_rows_sum_witness :
    (Preprocess.create_user_item_matrix
        [⟨1, 10, 50, some 4⟩, ⟨1, 10, 100, some 3⟩]).cell
        (Preprocess.user_to_idx [⟨1, 10, 50, some 4⟩, ⟨1, 10, 100, some 3⟩] 1)
        (Preprocess.book_to_idx [⟨1, 10, 50, some 4⟩, ⟨1, 10, 100, some 3⟩] 10)
      = ((([⟨1, 10, 50, some 4⟩, ⟨1, 10, 100, some 3⟩] :
            List Preprocess.Interaction).filter
            (fun r => decide (r.user_id = 1 ∧ r.book_id = 10))).map
          Preprocess.interactionValue).sum :=
  C4_duplicate_rows_sum [⟨1, 10, 50, some 4⟩, ⟨1, 10, 100, some 3⟩] 1 10
    (by simp) (by simp)

/-- Claim C5 counterexample: a row with progress 150 (outside [0,100]) does
not make construction fail; `create_user_item_matrix` has no validation and
produces a matrix whose cell applies the weighting formula (5·150/100). -/
theorem C5_no_validation_counterexample :
    (Preprocess.create_user_item_matrix [⟨1, 10, 150, some 5⟩]).cell 0 0 = 15 / 2 ∧
      (Preprocess.create_user_item_matrix [⟨1, 10, 150, some 5⟩]).nrows = 1 := by
  constructor
  · norm_num [Preprocess.create_user_item_matrix, Preprocess.CSRMatrix.cell,
      Preprocess.user_to_idx, Preprocess.book_to_idx, Preprocess.user_ids,
      Preprocess.book_ids, dedupFirstSeen, dedupAux, Preprocess.interactionValue,
      List.indexOf, List.findIdx, List.findIdx.go]
  · rfl

/-- Claim C5 (amended): matrix construction never validates ranges; a row
with out-of-range progress or rating is processed like any other and its
cell gets the ordinary weighted value. -/
theorem C5_out_of_range_processed (interactions : List Preprocess.Interaction)
    (r : Preprocess.Interaction) (hmem : r ∈ interactions)
    (_hout : r.progress < 0 ∨ 100 < r.progress ∨
      (∃ rr, r.rating = some rr ∧ (rr < 1 ∨ 5 < rr)))
    (honce : interactions.Pairwise
      (fun r1 r2 => ¬(r1.user_id = r2.user_id ∧ r1.book_id = r2.book_id))) :
    (Preprocess.create_user_item_matrix interactions).cell
        (Preprocess.user_to_idx interactions r.user_id)
        (Preprocess.book_to_idx interactions r.book_id)
      = Preprocess.interactionValue r := by
  rw [Preprocess.cell_eq_filter_sum interactions r.user_id r.book_id
      (List.mem_map_of_mem _ hmem) (List.mem_map_of_mem _ hmem),
    Preprocess.filter_pair_eq_singleton interactions r hmem honce]
  simp

/-- Witness for C5's amended theorem at the progress-150 row. -/
theorem C5_out_of_range_processed_witness :
    (Preprocess.create_user_item_matrix [⟨1, 10, 150, some 5⟩]).cell
        (Preprocess.user_to_idx [⟨1, 10, 150, some 5⟩] 1)
        (Preprocess.book_to_idx [⟨1, 10, 150, some 5⟩] 10)
      = Preprocess.interactionValue ⟨1, 10, 150, some 5⟩ :=
  C5_out_of_range_processed [⟨1, 10, 150, some 5⟩] ⟨1, 10, 150, some 5⟩
    (by simp) (Or.inr (Or.inl (by norm_num))) (by simp)

/-- Claim C6 counterexample: the recommender implementation's normalization
does not map a zero-range score set to 1.0 — it keeps the raw value (7). -/
theorem C6_zero_range_counterexample :
    Recom.normalize_scores [((1 : ℕ), (7 : ℚ))] = [(1, 7)] ∧ (7 : ℚ) ≠ 1 := by
  constructor
  · simp [Recom.normalize_scores, listMinQ, listMaxQ]
  · norm_num

/-- Claim C6 (amended): the ml implementation's normalization behaves as
claimed — a zero-range score set maps every score to exactly 1.0 and a
nonzero-range set maps each score to `(value - min) / (max - min)`; the
recommender implementation instead keeps raw values on zero range. -/
theorem C6_ml_normalize (scores : List (ℕ × ℚ)) (h : scores ≠ []) :
    (ML.scoreRange scores = 0 → ∀ p ∈ ML.normalize_scores scores, p.2 = 1) ∧
      (ML.scoreRange scores ≠ 0 → ML.normalize_scores scores
        = scores.map (fun q => (q.1, (q.2 - ML.scoresMin scores) / ML.scoreRange scores))) := by
  match scores with
  | [] => exact absurd rfl h
  | p :: rest =>
    constructor
    · intro hzero
      simp only [ML.normalize_scores]
      rw [if_pos (by simpa [ML.scoreRange, ML.scoresMax, ML.scoresMin] using hzero)]
      intro q hq
      rcases List.mem_map.mp hq with ⟨q', _, rfl⟩
      rfl
    · intro hnz
      simp only [ML.normalize_scores]
      rw [if_neg (by simpa [ML.scoreRange, ML.scoresMax, ML.scoresMin] using hnz)]
      rfl

/-- Witness for C6's amended theorem at the constant score set {1 ↦ 5, 2 ↦ 5}. -/
theorem C6_ml_normalize_witness :
    (ML.scoreRange [((1 : ℕ), (5 : ℚ)), (2, 5)] = 0 →
      ∀ p ∈ ML.normalize_scores [((1 : ℕ), (5 : ℚ)), (2, 5)], p.2 = 1) ∧
      (ML.scoreRange [((1 : ℕ), (5 : ℚ)), (2, 5)] ≠ 0 →
        ML.normalize_scores [((1 : ℕ), (5 : ℚ)), (2, 5)]
          = [((1 : ℕ), (5 : ℚ)), (2, 5)].map (fun q =>
              (q.1, (q.2 - ML.scoresMin [((1 : ℕ), (5 : ℚ)), (2, 5)]) /
                ML.scoreRange [((1 : ℕ), (5 : ℚ)), (2, 5)]))) :=
  C6_ml_normalize [((1 : ℕ), (5 : ℚ)), (2, 5)] (by simp)

/-- Claim C7 counterexample: the ml hybrid combiner does NOT degrade
gracefully — `generate_recommendations` for user 99, absent from
`mlCollabDemo`'s index, propagates the `KeyError` of `_get_user_idx`
uncaught instead of returning an empty list. -/
theorem C7_ml_unknown_user_raises :
    ML.Hybrid.generate_recommendations mlHybridDemo 99 5
      = Except.error "KeyError: user_to_idx" := by
  norm_num [ML.Hybrid.generate_recommendations, ML.Hybrid.get_collaborative_recommendations,
    ML.Collaborative.get_user_recommendations, ML.Collaborative.get_user_idx,
    mlHybridDemo, mlCollabDemo, alookup, Except.bind, bind]

/-- Claim C7 (amended): the src/src hybrid combiner returns an empty list
without raising for a user absent from the ratings data and from the built
interaction-matrix index; the ml combiner instead propagates a KeyError. -/
theorem C7_src_src_unknown_user_empty (st : SS.HybridRecommender)
    (user_id n : ℕ) (rows : List SS.Rating)
    (hrows : st.user_ratings = some rows)
    (hnorow : ∀ r ∈ rows, r.user_id ≠ user_id)
    (hunknown : ∀ pd, st.collaborative_filter.user_ratings_matrix = some pd →
      user_id ∉ pd.users) :
    SS.Hybrid.generate_recommendations st user_id n = [] := by
  have hpredict : ∀ m : ℕ, SS.predict st.collaborative_filter user_id m = [] := by
    intro m
    cases hm : st.collaborative_filter.user_ratings_matrix with
    | none => simp [SS.predict, hm]
    | some pd => simp [SS.predict, hm, idxOfQ_eq_none (hunknown pd hm)]
  have hfilter : rows.filter (fun r => decide (r.user_id = user_id)) = [] :=
    List.filter_eq_nil_iff.mpr (fun r hr => by simpa using hnorow r hr)
  simp [SS.Hybrid.generate_recommendations, hpredict, hrows, hfilter,
    SS.Hybrid.get_user_listened_books, sortDescBy, dedupFirstSeen, dedupAux]

/-- Witness for C7's amended theorem: user 99 is unknown to `ssDemoState`. -/
theorem C7_src_src_unknown_user_empty_witness :
    SS.Hybrid.generate_recommendations ssDemoState 99 5 = [] :=
  C7_src_src_unknown_user_empty ssDemoState 99 5
    [{ user_id := 1, book_id := 10, rating := 5 }] rfl
    (by
      intro r hr
      rw [List.mem_singleton] at hr
      subst hr
      decide)
    (by
      intro pd h
      injection h with h2
      rw [← h2]
      decide)

/-- Claim C8 counterexample: in `mlContentTie` books 101 and 102 have
identical features, so both have similarity 1.0 to book 101; the sort
places index 1 first and the positional `[1:top_n+1]` slice drops the TIED
OTHER item and returns the anchor 101 itself. -/
theorem C8_anchor_positional_counterexample :
    ML.ContentBased.get_similar_books mlContentTie 101 5 = Except.ok [(101, 1)] := by
  norm_num [ML.ContentBased.get_similar_books, ML.ContentBased.get_book_idx,
    ML.ContentBased.get_book_id, mlContentTie, alookup, mapExcept,
    argsortDesc, insertGe, List.range, List.range.loop, Except.bind, bind]

/-- Claim C8 (amended): the anchor is excluded by sorted position, not by
identity; consequently the anchor is guaranteed absent from the results
only when its self-similarity is a STRICT maximum of its similarity row
(no other item ties at the top). -/
theorem C8_anchor_excluded_when_strict_max (st : ML.ContentState)
    (book_id top_n i : ℕ) (l : List (ℕ × ℚ))
    (hidx : alookup book_id st.book_to_idx = some i)
    (hin : i < (st.similarity_matrix.getD i []).length)
    (hmax : ∀ j, j < (st.similarity_matrix.getD i []).length → j ≠ i →
      (st.similarity_matrix.getD i []).getD j 0 < (st.similarity_matrix.getD i []).getD i 0)
    (hinv : ∀ j, j < (st.similarity_matrix.getD i []).length →
      alookup j st.idx_to_book = some book_id → j = i)
    (hok : ML.ContentBased.get_similar_books st book_id top_n = Except.ok l) :
    ∀ p ∈ l, p.1 ≠ book_id := by
  unfold ML.ContentBased.get_similar_books at hok
  rw [ML.ContentBased.get_book_idx, hidx] at hok
  simp only [Except.bind, bind] at hok
  rcases argsortDesc_strict_max_head (fun j => (st.similarity_matrix.getD i []).getD j 0)
      (st.similarity_matrix.getD i []).length i hin hmax with ⟨rest, heq, _, hrest⟩
  rw [heq] at hok
  by_cases hmemab : book_id ∈ st.audiobook_ids
  · rw [if_pos hmemab] at hok
    intro p hp
    rcases mapExcept_ok_mem hok p hp with ⟨j, hj, hfj⟩
    have hjrest : j ∈ rest := List.mem_of_mem_take (by simpa using hj)
    rcases hrest j hjrest with ⟨hjn, hji⟩
    cases hlook : alookup j st.idx_to_book with
    | none =>
      rw [ML.ContentBased.get_book_id, hlook] at hfj
      simp [Except.bind, bind] at hfj
    | some bid =>
      rw [ML.ContentBased.get_book_id, hlook] at hfj
      simp only [Except.bind, bind] at hfj
      by_cases hbm : bid ∈ st.audiobook_ids
      · rw [if_pos hbm] at hfj
        cases hfj
        intro hcon
        exact hji (hinv j hjn (hlook.trans (congrArg some hcon)))
      · rw [if_neg hbm] at hfj
        cases hfj
  · rw [if_neg hmemab] at hok
    cases hok

/-- Witness for C8's amended theorem: in `mlContentStrict` the anchor 101
strictly dominates its row, and the single returned item is not 101. -/
theorem C8_anchor_excluded_witness :
    ((102 : ℕ), (1 : ℚ) / 2).1 ≠ 101 :=
  C8_anchor_excluded_when_strict_max mlContentStrict 101 5 0 [(102, 1 / 2)]
    (by norm_num [alookup, mlContentStrict])
    (by norm_num [mlContentStrict])
    (by
      intro j hj hne
      match j, hj with
      | 0, _ => exact absurd rfl hne
      | 1, _ => norm_num [mlContentStrict]
      | (k + 2), h =>
        rw [show (mlContentStrict.similarity_matrix.getD 0 []).length = 2 from rfl] at h
        omega)
    (by
      intro j hj hl
      match j, hj with
      | 0, _ => rfl
      | 1, _ => simp [alookup, mlContentStrict] at hl
      | (k + 2), h =>
        rw [show (mlContentStrict.similarity_matrix.getD 0 []).length = 2 from rfl] at h
        omega)
    (by
      norm_num [ML.ContentBased.get_similar_books, ML.ContentBased.get_book_idx,
        ML.ContentBased.get_book_id, mlContentStrict, alookup, mapExcept,
        argsortDesc, insertGe, List.range, List.range.loop, Except.bind, bind])
    (102, 1 / 2) (by simp)

/-- Claim C9: for every candidate in the union of both engines' score sets,
the hybrid score equals `cw * collab_score + ct * content_score`, a missing
engine score contributing 0 to its term. -/
theorem C9_hybrid_blend (cw ct : ℚ) (collab content : List (ℕ × ℚ)) (b : ℕ)
    (hb : b ∈ collab.map (·.1) ∨ b ∈ content.map (·.1)) :
    alookup b (ML.combine_scores cw ct collab content)
      = some (cw * ((alookup b collab).getD 0) + ct * ((alookup b content).getD 0)) := by
  unfold ML.combine_scores
  exact alookup_map_pair _ _ b (mem_dedupFirstSeen (List.mem_append.mpr (by simpa using hb)))

/-- Witness for C9 with weights 0.6/0.4, normalized collaborative score 1.0
and no content score: the hybrid score is exactly 0.6. -/
theorem C9_hybrid_blend_witness :
    alookup 10 (ML.combine_scores (3 / 5) (2 / 5) [(10, 1)] [])
        = some ((3 : ℚ) / 5 * ((alookup 10 [((10 : ℕ), (1 : ℚ))]).getD 0) +
            2 / 5 * ((alookup 10 ([] : List (ℕ × ℚ))).getD 0)) ∧
      ((3 : ℚ) / 5 * ((alookup 10 [((10 : ℕ), (1 : ℚ))]).getD 0) +
          2 / 5 * ((alookup 10 ([] : List (ℕ × ℚ))).getD 0)) = 3 / 5 :=
  ⟨C9_hybrid_blend (3 / 5) (2 / 5) [(10, 1)] [] 10 (Or.inl (by simp)),
    by simp [alookup]⟩

/-- Claim C10: before any data is assigned (models unfitted), all three
public queries of the src/src hybrid recommender return the empty list for
every user and book id — and, the embedding being total exactly as the
source functions catch their own lookup errors, they never raise. -/
theorem C10_unfitted_queries_empty (user_id book_id n : ℕ) :
    SS.Hybrid.get_user_recommendations SS.Hybrid.initState user_id n = [] ∧
      SS.Hybrid.get_similar_books SS.Hybrid.initState book_id n = [] ∧
        SS.Hybrid.generate_recommendations SS.Hybrid.initState user_id n = [] := by
  refine ⟨?_, ?_, ?_⟩
  · simp [SS.Hybrid.get_user_recommendations, SS.Hybrid.get_user_listened_books,
      SS.Hybrid.initState, SS.predict]
  · simp [SS.Hybrid.get_similar_books, SS.ContentBased.get_similar_books,
      SS.Hybrid.initState]
  · simp [SS.Hybrid.generate_recommendations, SS.Hybrid.get_user_listened_books,
      SS.Hybrid.initState, SS.predict, dedupFirstSeen, dedupAux]
